import Mathlib

/-!
Shallow embedding of the Model/Manager layer of the `xapian_model` repository.

The repository contains two near-identical variants of one component:
`src/xapian_model/base.py` (async) and `src/xprofile/base.py` (sync).
Python dicts are modelled as ordered association lists with Python dict
update semantics; the external backend client (`xapiand.client`) is modelled
by passing the responses of the (at most two) remote calls an operation can
make as explicit oracle arguments, while each operation also returns the
trace of the wire calls it issued.
-/

/-- A Python value as it occurs in document data, schemas and bodies. -/
inductive Val : Type where
  | vstr (s : String)
  | vnat (n : Nat)
  | vbool (b : Bool)
  | vdict (entries : List (String × Val))

/-- A Python dict: an ordered association list with string keys. -/
abbrev Dict := List (String × Val)

/-- Models `d[key]` lookup: first entry carrying `key` (Python dicts never hold
duplicate keys, so the first entry is the entry). -/
def Dict.lookup : Dict → String → Option Val
  | [], _ => none
  | (k, v) :: rest, key => if k = key then some v else Dict.lookup rest key

/-- Models `d[key] = v`: replace the value of an existing key in place (keeping its
position, as CPython dicts do) or append a fresh entry at the end. -/
def Dict.insert : Dict → String → Val → Dict
  | [], n, v => [(n, v)]
  | (k, w) :: rest, n, v =>
    if k = n then (n, v) :: rest else (k, w) :: Dict.insert rest n v

/-- Models `d.pop(key)`-style removal: drop the entry for `key`, keeping order. -/
def Dict.eraseKey : Dict → String → Dict
  | [], _ => []
  | (k, v) :: rest, n =>
    if k = n then Dict.eraseKey rest n else (k, v) :: Dict.eraseKey rest n

/-- Models `{**a, **b}`: start from `a` and write every entry of `b` over it, so
values of `b` win on key collision. -/
def Dict.merge (a b : Dict) : Dict :=
  b.foldl (fun acc p => Dict.insert acc p.1 p.2) a

/-- The keys of a dict, in order. -/
def Dict.keys (d : Dict) : List String :=
  d.map Prod.fst

/-- Real Python dicts never carry a key twice. -/
def Dict.NodupKeys (d : Dict) : Prop :=
  (Dict.keys d).Nodup

instance (d : Dict) : Decidable (Dict.NodupKeys d) := by
  unfold Dict.NodupKeys; infer_instance

/-- Left-biased choice on options (first non-`none` wins). -/
def orElseO (x y : Option Val) : Option Val :=
  match x with
  | some v => some v
  | none => y

/-- One piece of a parsed format-string template: literal text or a named
replacement field, mirroring what `string.Formatter().parse` yields. -/
inductive TemplatePart : Type where
  | lit (s : String)
  | field (name : String)

/-- A parsed Python format string such as `"/products/\x7bcategory\x7d"`. -/
abbrev Template := List TemplatePart

/-- Keep each name once (Python collects the names into a `set`). -/
def distinctNames : List String → List String
  | [] => []
  | k :: rest => if k ∈ rest then distinctNames rest else k :: distinctNames rest

/-- Models `_template_fields(template)`: every named replacement field of the
template, collected as a set (empty names — bare positional fields — are
filtered out by the `if fname` guard in the source). -/
def _template_fields (t : Template) : List String :=
  distinctNames (t.filterMap fun p =>
    match p with
    | TemplatePart.lit _ => none
    | TemplatePart.field f => if f = "" then none else some f)

mutual

/-- Models `str(v)` as used by `str.format` on a replacement field. -/
def Val.render : Val → String
  | Val.vstr s => s
  | Val.vnat n => toString n
  | Val.vbool b => if b then "True" else "False"
  | Val.vdict d => "\x7b" ++ Val.renderEntries d ++ "\x7d"

/-- Models `repr(v)`, used for values nested inside a rendered dict. -/
def Val.reprV : Val → String
  | Val.vstr s => "\x27" ++ s ++ "\x27"
  | Val.vnat n => toString n
  | Val.vbool b => if b then "True" else "False"
  | Val.vdict d => "\x7b" ++ Val.renderEntries d ++ "\x7d"

/-- The rendered `"k": v, ...` body of a dict. -/
def Val.renderEntries : List (String × Val) → String
  | [] => ""
  | [(k, v)] => "\x27" ++ k ++ "\x27: " ++ Val.reprV v
  | (k, v) :: p :: rest =>
      "\x27" ++ k ++ "\x27: " ++ Val.reprV v ++ ", " ++ Val.renderEntries (p :: rest)

end

/-- Models `template.format(**env)` against an abstract environment: every literal
is copied, every named field is resolved through `env`; an unresolvable
field raises `KeyError`, modelled as `none`. -/
def Template.formatEnv : Template → (String → Option Val) → Option String
  | [], _ => some ""
  | TemplatePart.lit s :: rest, env =>
    (Template.formatEnv rest env).map (fun tail => s ++ tail)
  | TemplatePart.field f :: rest, env =>
    match env f with
    | none => none
    | some v => (Template.formatEnv rest env).map (fun tail => Val.render v ++ tail)

/-- Models `template.format(**d)` for a concrete keyword dict `d`. -/
def Template.format (t : Template) (d : Dict) : Option String :=
  Template.formatEnv t (fun k => Dict.lookup d k)

/-- The HTTP response attached to a transport failure. -/
structure Response : Type where
  status_code : Nat
deriving DecidableEq

/-- Models `xapiand.TransportError`: may carry no response at all (e.g. a
connection-level failure), which is why `src/xprofile/base.py` guards with
`exc.response is not None`. -/
structure TransportError : Type where
  response : Option Response
deriving DecidableEq

/-- Outcome of one `client.put` call, supplied as an oracle. -/
inductive PutResult : Type where
  | ok (data : Dict)
  | err (e : TransportError)

/-- How an operation of this layer can fail, seen from its caller. -/
inductive PyError : Type where
  | transport (e : TransportError)
  | attributeOnNone
  | keyError
deriving DecidableEq

/-- One `client.put(index, body=body, id=id)` wire call. -/
structure PutCall : Type where
  index : String
  body : Dict
  id : Option Val

/-- One `client.get(index, id=id, volatile=volatile)` wire call. -/
structure GetCall : Type where
  index : String
  id : String
  volatile : Bool

/-- One `client.search(...)` wire call. -/
structure SearchCall : Type where
  index : String
  query : Option String
  limit : Option Nat
  offset : Option Nat
  sort : Option String
  check_at_least : Option Nat

/-- One `client.delete(index, id=id)` wire call. -/
structure DeleteCall : Type where
  index : String
  id : Option Val

/-- Outcome of one `client.get` call. -/
inductive GetResult : Type where
  | ok (data : Dict)
  | err (e : TransportError)

/-- A search response: `hits`, exact `count`, estimated `total`, and the
optional `aggregations` attribute (absent attribute modelled as `none`,
matching `getattr(response, "aggregations", None)`). -/
structure SearchResponse : Type where
  hits : List Dict
  count : Nat
  total : Nat
  aggregations : Option Dict

/-- Outcome of one `client.search` call. -/
inductive SearchResult : Type where
  | ok (r : SearchResponse)
  | err (e : TransportError)

/-- Outcome of one `client.delete` call. -/
inductive DeleteResult : Type where
  | ok
  | err (e : TransportError)

/-- A `BaseXapianModel` instance: `doc` is the dict bound to the `_data`
attribute; `priv` holds the other instance attributes (every attribute whose
name starts with `_`, e.g. `_index_params`), as written by
`object.__setattr__`. -/
structure ModelState : Type where
  doc : Dict
  priv : Dict

namespace BaseXapianModel

/-- Models `__init__(self, data=None, **kwargs)`:
`self._data = \x7b**(data or \x7b\x7d), **kwargs\x7d`. -/
def init (data : Option Dict) (kwargs : Dict) : ModelState :=
  { doc := Dict.merge (data.getD []) kwargs, priv := [] }

/-- Models `name.startswith("_")` for the one-character marker `_`. -/
def reservedName (s : String) : Bool :=
  match s.data with
  | [] => false
  | c :: _ => c = '_'

/-- Models `__setattr__`: reserved (underscore) names go to the instance via
`object.__setattr__`, everything else is written into `_data`.  (Assigning
the `_data` attribute itself — as `save` does internally — replaces `doc`
wholesale and is modelled directly at its use site.) -/
def setAttr (m : ModelState) (name : String) (v : Val) : ModelState :=
  if reservedName name then
    { m with priv := Dict.insert m.priv name v }
  else
    { m with doc := Dict.insert m.doc name v }

/-- The missing-attribute condition raised by `__getattr__`, carrying the
class name and the requested attribute name (the source renders them into
the message `"Cls" object has no attribute "name"`). -/
structure AttributeError : Type where
  clsName : String
  attrName : String
deriving DecidableEq

/-- Models `__getattr__(self, name)`: fall back to `_data`, else raise
`AttributeError` naming the class and the field. -/
def getAttr (cls : String) (m : ModelState) (name : String) :
    Except AttributeError Val :=
  match Dict.lookup m.doc name with
  | some v => Except.ok v
  | none => Except.error { clsName := cls, attrName := name }

/-- Models `getattr(self, "_index_params", \x7b\x7d)`: the instance attribute if
set; otherwise attribute lookup falls through `__getattr__` into `_data`;
otherwise the default empty dict. -/
def indexParamsOf (m : ModelState) : Dict :=
  match Dict.lookup m.priv "_index_params" with
  | some (Val.vdict d) => d
  | some _ => []
  | none =>
    match Dict.lookup m.doc "_index_params" with
    | some (Val.vdict d) => d
    | _ => []

/-- Models `_get_index(self)`:
`INDEX_TEMPLATE.format(**\x7b**self._data, **index_params\x7d)`. -/
def _get_index (tmpl : Template) (m : ModelState) : Option String :=
  Template.format tmpl (Dict.merge m.doc (indexParamsOf m))

end BaseXapianModel

/-- Models `instance = model_cls(data); instance._index_params = index_params` —
how both managers wrap a backend document into a model instance. -/
def wrapInstance (data ip : Dict) : ModelState :=
  BaseXapianModel.setAttr (BaseXapianModel.init (some data) [])
    "_index_params" (Val.vdict ip)

/-- The recursion behind `_extract_index_params`: walk the placeholder
names; `f in kwargs` pops the entry into the result. -/
def extractGo : List String → Dict → Dict → Dict × Dict
  | [], acc, kw => (acc, kw)
  | f :: fs, acc, kw =>
    match Dict.lookup kw f with
    | some v => extractGo fs (acc ++ [(f, v)]) (Dict.eraseKey kw f)
    | none => extractGo fs acc kw

/-- Models `Manager._extract_index_params(kwargs)`:
`\x7bf: kwargs.pop(f) for f in fields if f in kwargs\x7d`; returns the
extracted dict together with the kwargs that remain. -/
def _extract_index_params (tmpl : Template) (kwargs : Dict) : Dict × Dict :=
  extractGo (_template_fields tmpl) [] kwargs

/-- The `SearchResults` dataclass. -/
structure SearchResults : Type where
  results : List ModelState
  total_count : Nat
  matches_estimated : Nat
  aggregations : Option Dict

namespace xapian_model

/-- Models `Manager.create` of `src/xapian_model/base.py` (async variant).
`r1` is the outcome of the first `client.put`, `r2` of the retry put when
one is issued; the second component is the trace of put calls made.  Note
the bare `exc.response.status_code` access: on a response-less
`TransportError` Python raises `AttributeError` inside the handler,
modelled as `PyError.attributeOnNone`. -/
def create (tmpl : Template) (schema : Dict) (id : Option String)
    (kwargs : Dict) (r1 r2 : PutResult) :
    Except PyError ModelState × List PutCall :=
  let ep := _extract_index_params tmpl kwargs
  let index_params := ep.1
  let body := ep.2
  match Template.format tmpl index_params with
  | none => (Except.error PyError.keyError, [])
  | some index =>
    let idv := id.map Val.vstr
    match r1 with
    | PutResult.ok data =>
        (Except.ok (wrapInstance data index_params),
         [{ index := index, body := body, id := idv }])
    | PutResult.err e =>
      match e.response with
      | none =>
          (Except.error PyError.attributeOnNone,
           [{ index := index, body := body, id := idv }])
      | some resp =>
        if resp.status_code = 412 then
          let body2 := Dict.insert body "_schema" (Val.vdict schema)
          match r2 with
          | PutResult.ok data =>
              (Except.ok (wrapInstance data index_params),
               [{ index := index, body := body, id := idv },
                { index := index, body := body2, id := idv }])
          | PutResult.err e2 =>
              (Except.error (PyError.transport e2),
               [{ index := index, body := body, id := idv },
                { index := index, body := body2, id := idv }])
        else
          (Except.error (PyError.transport e),
           [{ index := index, body := body, id := idv }])

/-- Models `Manager.filter` of `src/xapian_model/base.py`. -/
def filter (tmpl : Template) (query : Option String) (limit : Option Nat)
    (offset : Option Nat) (sort : Option String) (check_at_least : Option Nat)
    (kwargs : Dict) (r : SearchResult) :
    Except PyError SearchResults × List SearchCall :=
  let ep := _extract_index_params tmpl kwargs
  let index_params := ep.1
  match Template.format tmpl index_params with
  | none => (Except.error PyError.keyError, [])
  | some index =>
    let call : SearchCall :=
      { index := index, query := query, limit := limit, offset := offset,
        sort := sort, check_at_least := check_at_least }
    match r with
    | SearchResult.err e => (Except.error (PyError.transport e), [call])
    | SearchResult.ok response =>
        (Except.ok
          { results := response.hits.map (fun hit => wrapInstance hit index_params),
            total_count := response.count,
            matches_estimated := response.total,
            aggregations := response.aggregations },
         [call])

/-- Models `Manager.get` of `src/xapian_model/base.py`. -/
def get (tmpl : Template) (id : String) (volatile : Bool) (kwargs : Dict)
    (r : GetResult) : Except PyError ModelState × List GetCall :=
  let ep := _extract_index_params tmpl kwargs
  let index_params := ep.1
  match Template.format tmpl index_params with
  | none => (Except.error PyError.keyError, [])
  | some index =>
    let call : GetCall := { index := index, id := id, volatile := volatile }
    match r with
    | GetResult.ok data => (Except.ok (wrapInstance data index_params), [call])
    | GetResult.err e => (Except.error (PyError.transport e), [call])

/-- Models `BaseXapianModel.save` of `src/xapian_model/base.py`.  The body of the
first put is `self._data`; on a 412 the second body is
`\x7b**self._data, "_schema": SCHEMA\x7d`; on success `self._data = data`
replaces the whole document mapping.  As in `create`, a response-less
`TransportError` hits the unguarded `exc.response.status_code`. -/
def save (tmpl : Template) (schema : Dict) (m : ModelState)
    (r1 r2 : PutResult) : Except PyError ModelState × List PutCall :=
  match BaseXapianModel._get_index tmpl m with
  | none => (Except.error PyError.keyError, [])
  | some index =>
    let body := m.doc
    let call1 : PutCall :=
      { index := index, body := body, id := Dict.lookup body "id" }
    match r1 with
    | PutResult.ok data => (Except.ok { m with doc := data }, [call1])
    | PutResult.err e =>
      match e.response with
      | none => (Except.error PyError.attributeOnNone, [call1])
      | some resp =>
        if resp.status_code = 412 then
          let body2 := Dict.merge m.doc [("_schema", Val.vdict schema)]
          let call2 : PutCall :=
            { index := index, body := body2, id := Dict.lookup body2 "id" }
          match r2 with
          | PutResult.ok data => (Except.ok { m with doc := data }, [call1, call2])
          | PutResult.err e2 =>
              (Except.error (PyError.transport e2), [call1, call2])
        else
          (Except.error (PyError.transport e), [call1])

/-- Models `BaseXapianModel.delete` of `src/xapian_model/base.py`: one delete call
at the resolved index with `self._data.get("id")`; never mutates local
state, so the resulting instance state is returned unchanged. -/
def delete (tmpl : Template) (m : ModelState) (r : DeleteResult) :
    Except PyError Unit × List DeleteCall × ModelState :=
  match BaseXapianModel._get_index tmpl m with
  | none => (Except.error PyError.keyError, [], m)
  | some index =>
    let call : DeleteCall := { index := index, id := Dict.lookup m.doc "id" }
    match r with
    | DeleteResult.ok => (Except.ok (), [call], m)
    | DeleteResult.err e => (Except.error (PyError.transport e), [call], m)

end xapian_model

namespace xprofile

/-- Models `Manager.create` of `src/xprofile/base.py` (sync variant).  Identical
to the async variant except for the guard
`exc.response is not None and exc.response.status_code == 412`: a
response-less `TransportError` is re-raised unchanged. -/
def create (tmpl : Template) (schema : Dict) (id : Option String)
    (kwargs : Dict) (r1 r2 : PutResult) :
    Except PyError ModelState × List PutCall :=
  let ep := _extract_index_params tmpl kwargs
  let index_params := ep.1
  let body := ep.2
  match Template.format tmpl index_params with
  | none => (Except.error PyError.keyError, [])
  | some index =>
    let idv := id.map Val.vstr
    match r1 with
    | PutResult.ok data =>
        (Except.ok (wrapInstance data index_params),
         [{ index := index, body := body, id := idv }])
    | PutResult.err e =>
      match e.response with
      | none =>
          (Except.error (PyError.transport e),
           [{ index := index, body := body, id := idv }])
      | some resp =>
        if resp.status_code = 412 then
          let body2 := Dict.insert body "_schema" (Val.vdict schema)
          match r2 with
          | PutResult.ok data =>
              (Except.ok (wrapInstance data index_params),
               [{ index := index, body := body, id := idv },
                { index := index, body := body2, id := idv }])
          | PutResult.err e2 =>
              (Except.error (PyError.transport e2),
               [{ index := index, body := body, id := idv },
                { index := index, body := body2, id := idv }])
        else
          (Except.error (PyError.transport e),
           [{ index := index, body := body, id := idv }])

/-- Models `Manager.filter` of `src/xprofile/base.py` (textually identical to the
async variant apart from `await`). -/
def filter (tmpl : Template) (query : Option String) (limit : Option Nat)
    (offset : Option Nat) (sort : Option String) (check_at_least : Option Nat)
    (kwargs : Dict) (r : SearchResult) :
    Except PyError SearchResults × List SearchCall :=
  let ep := _extract_index_params tmpl kwargs
  let index_params := ep.1
  match Template.format tmpl index_params with
  | none => (Except.error PyError.keyError, [])
  | some index =>
    let call : SearchCall :=
      { index := index, query := query, limit := limit, offset := offset,
        sort := sort, check_at_least := check_at_least }
    match r with
    | SearchResult.err e => (Except.error (PyError.transport e), [call])
    | SearchResult.ok response =>
        (Except.ok
          { results := response.hits.map (fun hit => wrapInstance hit index_params),
            total_count := response.count,
            matches_estimated := response.total,
            aggregations := response.aggregations },
         [call])

/-- Models `Manager.get` of `src/xprofile/base.py`. -/
def get (tmpl : Template) (id : String) (volatile : Bool) (kwargs : Dict)
    (r : GetResult) : Except PyError ModelState × List GetCall :=
  let ep := _extract_index_params tmpl kwargs
  let index_params := ep.1
  match Template.format tmpl index_params with
  | none => (Except.error PyError.keyError, [])
  | some index =>
    let call : GetCall := { index := index, id := id, volatile := volatile }
    match r with
    | GetResult.ok data => (Except.ok (wrapInstance data index_params), [call])
    | GetResult.err e => (Except.error (PyError.transport e), [call])

/-- Models `BaseXapianModel.save` of `src/xprofile/base.py`, with the
`exc.response is not None` guard: a response-less failure is re-raised. -/
def save (tmpl : Template) (schema : Dict) (m : ModelState)
    (r1 r2 : PutResult) : Except PyError ModelState × List PutCall :=
  match BaseXapianModel._get_index tmpl m with
  | none => (Except.error PyError.keyError, [])
  | some index =>
    let body := m.doc
    let call1 : PutCall :=
      { index := index, body := body, id := Dict.lookup body "id" }
    match r1 with
    | PutResult.ok data => (Except.ok { m with doc := data }, [call1])
    | PutResult.err e =>
      match e.response with
      | none => (Except.error (PyError.transport e), [call1])
      | some resp =>
        if resp.status_code = 412 then
          let body2 := Dict.merge m.doc [("_schema", Val.vdict schema)]
          let call2 : PutCall :=
            { index := index, body := body2, id := Dict.lookup body2 "id" }
          match r2 with
          | PutResult.ok data => (Except.ok { m with doc := data }, [call1, call2])
          | PutResult.err e2 =>
              (Except.error (PyError.transport e2), [call1, call2])
        else
          (Except.error (PyError.transport e), [call1])

/-- Models `BaseXapianModel.delete` of `src/xprofile/base.py`. -/
def delete (tmpl : Template) (m : ModelState) (r : DeleteResult) :
    Except PyError Unit × List DeleteCall × ModelState :=
  match BaseXapianModel._get_index tmpl m with
  | none => (Except.error PyError.keyError, [], m)
  | some index =>
    let call : DeleteCall := { index := index, id := Dict.lookup m.doc "id" }
    match r with
    | DeleteResult.ok => (Except.ok (), [call], m)
    | DeleteResult.err e => (Except.error (PyError.transport e), [call], m)

end xprofile


/-! ### Concrete instances used by witnesses and counterexamples

These mirror the fixtures of `tests/conftest.py`: the template
"/products/\x7bcategory\x7d" of `Product` and the placeholder-free
"/items" of `SimpleModel`. -/

/-- The parsed `Product.INDEX_TEMPLATE`. -/
def tmplProducts : Template :=
  [TemplatePart.lit "/products/", TemplatePart.field "category"]

/-- The parsed `SimpleModel.INDEX_TEMPLATE` (no placeholders). -/
def tmplItems : Template :=
  [TemplatePart.lit "/items"]

/-- A plain instance holding one public field. -/
def mC5 : ModelState :=
  BaseXapianModel.init (some [("name", Val.vstr "Phone")]) []

/-- An instance whose document data and stashed index-params disagree on
the key `category`. -/
def mC6 : ModelState :=
  wrapInstance [("category", Val.vstr "books")]
    [("category", Val.vstr "electronics")]

/-- A plain instance holding one public field. -/
def mC8 : ModelState :=
  BaseXapianModel.init (some [("name", Val.vstr "Phone")]) []

/-- An instance carrying an id, ready to be deleted. -/
def mC9 : ModelState :=
  wrapInstance [("id", Val.vstr "42"), ("title", Val.vstr "Doomed")] []

/-- An instance carrying an id and a stale field, ready to be saved. -/
def mC7 : ModelState :=
  BaseXapianModel.init (some [("id", Val.vstr "1"), ("title", Val.vstr "Old")]) []

/-- A well-behaved search response: `count` equals the number of hits. -/
def respC3 : SearchResponse :=
  { hits := [[("id", Val.vstr "1")], [("id", Val.vstr "2")]],
    count := 2, total := 100, aggregations := none }

/-- The `SearchResults` that `filter` builds from `respC3`. -/
def srC3 : SearchResults :=
  { results := [wrapInstance [("id", Val.vstr "1")] [],
                wrapInstance [("id", Val.vstr "2")] []],
    total_count := 2, matches_estimated := 100, aggregations := none }

/-- The single search call `filter` issues on `tmplItems`. -/
def callC3 : SearchCall :=
  { index := "/items", query := none, limit := none, offset := none,
    sort := none, check_at_least := none }

/-- A put outcome whose failure, if any, carries an HTTP response — the
regime in which the sync and async variants agree. -/
def hasResponse : PutResult → Prop
  | PutResult.ok _ => True
  | PutResult.err e => e.response ≠ none

/-! ### Lemmas about the dict and template operations -/

theorem orElseO_none_left (y : Option Val) : orElseO none y = y := rfl

theorem orElseO_none_right (x : Option Val) : orElseO x none = x := by
  cases x <;> rfl

theorem orElseO_assoc (x y z : Option Val) :
    orElseO (orElseO x y) z = orElseO x (orElseO y z) := by
  cases x <;> rfl

theorem Dict.lookup_insert (d : Dict) (n k : String) (v : Val) :
    Dict.lookup (Dict.insert d n v) k = if n = k then some v else Dict.lookup d k := by
  induction d with
  | nil => simp [Dict.insert, Dict.lookup]
  | cons p rest ih =>
    obtain ⟨k0, w⟩ := p
    simp only [Dict.insert]
    by_cases h0 : k0 = n
    · subst h0
      simp only [if_pos rfl, Dict.lookup]
      by_cases hk : k0 = k <;> simp [hk]
    · simp only [if_neg h0, Dict.lookup, ih]
      by_cases hk : k0 = k
      · subst hk
        have hnk : n ≠ k0 := fun h => h0 h.symm
        simp [hnk]
      · simp [hk]

theorem Dict.lookup_eraseKey (d : Dict) (n k : String) :
    Dict.lookup (Dict.eraseKey d n) k = if n = k then none else Dict.lookup d k := by
  induction d with
  | nil => simp [Dict.eraseKey, Dict.lookup]
  | cons p rest ih =>
    obtain ⟨k0, w⟩ := p
    simp only [Dict.eraseKey]
    by_cases h0 : k0 = n
    · subst h0
      rw [if_pos rfl, ih]
      by_cases hk : k0 = k
      · subst hk; simp
      · simp [Dict.lookup, hk]
    · simp only [if_neg h0, Dict.lookup]
      by_cases hk : k0 = k
      · subst hk
        have hnk : n ≠ k0 := fun h => h0 h.symm
        simp [hnk]
      · simp [hk, ih]

theorem Dict.lookup_append (a b : Dict) (k : String) :
    Dict.lookup (a ++ b) k = orElseO (Dict.lookup a k) (Dict.lookup b k) := by
  induction a with
  | nil => simp [Dict.lookup, orElseO]
  | cons p rest ih =>
    obtain ⟨k0, w⟩ := p
    by_cases h : k0 = k <;> simp [Dict.lookup, h, ih, orElseO]

theorem Dict.lookup_eq_none (d : Dict) (k : String) (h : k ∉ Dict.keys d) :
    Dict.lookup d k = none := by
  induction d with
  | nil => rfl
  | cons p rest ih =>
    obtain ⟨k0, w⟩ := p
    simp only [Dict.keys, List.map_cons, List.mem_cons] at h
    push_neg at h
    have h1 : k0 ≠ k := fun he => h.1 he.symm
    simp only [Dict.lookup, if_neg h1]
    exact ih h.2

theorem Dict.lookup_merge (a b : Dict) (h : Dict.NodupKeys b) (k : String) :
    Dict.lookup (Dict.merge a b) k = orElseO (Dict.lookup b k) (Dict.lookup a k) := by
  induction b generalizing a with
  | nil => simp [Dict.merge, Dict.lookup, orElseO, List.foldl]
  | cons p rest ih =>
    obtain ⟨n, v⟩ := p
    have h2 : (n :: Dict.keys rest).Nodup := h
    have hpair := List.nodup_cons.mp h2
    have hn : n ∉ Dict.keys rest := hpair.1
    have hrest : Dict.NodupKeys rest := hpair.2
    have hstep : Dict.merge a ((n, v) :: rest) = Dict.merge (Dict.insert a n v) rest := rfl
    rw [hstep, ih _ hrest]
    by_cases hk : n = k
    · subst hk
      have hnone : Dict.lookup rest n = none := Dict.lookup_eq_none rest n hn
      simp [Dict.lookup, hnone, orElseO, Dict.lookup_insert]
    · simp [Dict.lookup, hk, Dict.lookup_insert, orElseO,
        fun he : n = k => hk he]

theorem extractGo_snd (fs : List String) (acc kw : Dict) (k : String) :
    Dict.lookup (extractGo fs acc kw).2 k
      = if k ∈ fs then none else Dict.lookup kw k := by
  induction fs generalizing acc kw with
  | nil => simp [extractGo]
  | cons f fs ih =>
    simp only [extractGo]
    cases hf : Dict.lookup kw f with
    | some v =>
      rw [ih]
      by_cases hk : k ∈ fs
      · simp [hk, List.mem_cons]
      · by_cases hkf : k = f
        · subst hkf
          simp [hk, Dict.lookup_eraseKey, List.mem_cons]
        · have hfk : f ≠ k := fun he => hkf he.symm
          simp [hk, hkf, Dict.lookup_eraseKey, hfk, List.mem_cons]
    | none =>
      rw [ih]
      by_cases hk : k ∈ fs
      · simp [hk, List.mem_cons]
      · by_cases hkf : k = f
        · subst hkf
          simp [hk, hf, List.mem_cons]
        · simp [hk, hkf, List.mem_cons]

theorem extractGo_fst (fs : List String) (acc kw : Dict) (k : String) :
    Dict.lookup (extractGo fs acc kw).1 k
      = orElseO (Dict.lookup acc k) (if k ∈ fs then Dict.lookup kw k else none) := by
  induction fs generalizing acc kw with
  | nil => simp [extractGo, orElseO_none_right]
  | cons f fs ih =>
    simp only [extractGo]
    cases hf : Dict.lookup kw f with
    | some v =>
      rw [ih, Dict.lookup_append, orElseO_assoc]
      have hinner :
          orElseO (Dict.lookup [(f, v)] k)
              (if k ∈ fs then Dict.lookup (Dict.eraseKey kw f) k else none)
            = if k ∈ f :: fs then Dict.lookup kw k else none := by
        by_cases hkf : k = f
        · subst hkf
          simp [Dict.lookup, orElseO, hf, List.mem_cons]
        · have hfk : f ≠ k := fun he => hkf he.symm
          simp only [Dict.lookup, if_neg hfk, orElseO_none_left,
            Dict.lookup_eraseKey, List.mem_cons]
          by_cases hk : k ∈ fs <;> simp [hk, hkf, hfk]
      rw [hinner]
    | none =>
      rw [ih]
      have hcond : (if k ∈ fs then Dict.lookup kw k else none)
          = if k ∈ f :: fs then Dict.lookup kw k else none := by
        by_cases hkf : k = f
        · subst hkf
          simp [hf, List.mem_cons]
        · simp [List.mem_cons, hkf]
      rw [hcond]

theorem Template.formatEnv_congr (t : Template) (e1 e2 : String → Option Val)
    (h : ∀ k, e1 k = e2 k) :
    Template.formatEnv t e1 = Template.formatEnv t e2 := by
  have he : e1 = e2 := funext h
  rw [he]

/-! ### The claims -/

/-- C2: for every template `T` and keyword mapping `K`,
`_extract_index_params` returns exactly the restriction of `K` to the
placeholder names of `T` and removes those keys from `K`, every other key
of `K` keeps its original value, and for a placeholder-free template the
result is empty with `K` returned untouched. -/
theorem extract_index_params_partitions (tmpl : Template) (K : Dict) (k : String) :
    (Dict.lookup (_extract_index_params tmpl K).1 k
        = if k ∈ _template_fields tmpl then Dict.lookup K k else none)
    ∧ (Dict.lookup (_extract_index_params tmpl K).2 k
        = if k ∈ _template_fields tmpl then none else Dict.lookup K k)
    ∧ (_template_fields tmpl = [] → _extract_index_params tmpl K = ([], K)) := by
  refine ⟨?_, ?_, ?_⟩
  · unfold _extract_index_params
    rw [extractGo_fst]
    simp [Dict.lookup, orElseO]
  · unfold _extract_index_params
    rw [extractGo_snd]
  · intro h
    unfold _extract_index_params
    rw [h]
    rfl

/-- Witness for C2 at the fixture templates: the placeholder key moves out
of the kwargs, the rest stays, and a placeholder-free template extracts
nothing. -/
theorem extract_index_params_partitions_witness :
    (Dict.lookup (_extract_index_params tmplProducts
        [("category", Val.vstr "electronics"), ("name", Val.vstr "Phone")]).1 "category"
      = some (Val.vstr "electronics"))
    ∧ (_template_fields tmplItems = [])
    ∧ (_extract_index_params tmplItems [("name", Val.vstr "Phone")]
        = ([], [("name", Val.vstr "Phone")])) := by
  refine ⟨?_, rfl, ?_⟩
  · rw [(extract_index_params_partitions tmplProducts
      [("category", Val.vstr "electronics"), ("name", Val.vstr "Phone")] "category").1]
    rfl
  · exact (extract_index_params_partitions tmplItems
      [("name", Val.vstr "Phone")] "name").2.2 rfl

/-- C6: resolving the own index path of an instance formats the template over
the union of the document data and the stashed index-params, the
index-param value winning on every key collision — stated as: the lookup
environment the path is formatted over tries the index-params first and
only then the document data. -/
theorem get_index_params_take_precedence (tmpl : Template) (m : ModelState)
    (h : Dict.NodupKeys (BaseXapianModel.indexParamsOf m)) :
    BaseXapianModel._get_index tmpl m
      = Template.formatEnv tmpl
          (fun k => orElseO (Dict.lookup (BaseXapianModel.indexParamsOf m) k)
                            (Dict.lookup m.doc k)) := by
  unfold BaseXapianModel._get_index Template.format
  exact Template.formatEnv_congr tmpl _ _
    (fun k => Dict.lookup_merge m.doc (BaseXapianModel.indexParamsOf m) h k)

/-- Witness for C6: on an instance whose data says `category = books` but
whose index-params say `category = electronics`, the resolved path is
`/products/electronics`. -/
theorem get_index_params_take_precedence_witness :
    Dict.NodupKeys (BaseXapianModel.indexParamsOf mC6)
    ∧ BaseXapianModel._get_index tmplProducts mC6
        = Template.formatEnv tmplProducts
            (fun k => orElseO (Dict.lookup (BaseXapianModel.indexParamsOf mC6) k)
                              (Dict.lookup mC6.doc k))
    ∧ BaseXapianModel._get_index tmplProducts mC6 = some "/products/electronics" := by
  refine ⟨by decide, ?_, rfl⟩
  exact get_index_params_take_precedence tmplProducts mC6 (by decide)

/-- C8: reading a field name absent from the document data fails with the
missing-attribute condition carrying the class name and the field name;
reading a present field returns the stored value. -/
theorem getattr_missing_attribute (cls : String) (m : ModelState) (name : String) :
    (Dict.lookup m.doc name = none →
      BaseXapianModel.getAttr cls m name
        = Except.error { clsName := cls, attrName := name })
    ∧ (∀ v, Dict.lookup m.doc name = some v →
        BaseXapianModel.getAttr cls m name = Except.ok v) := by
  constructor
  · intro h
    unfold BaseXapianModel.getAttr
    rw [h]
  · intro v h
    unfold BaseXapianModel.getAttr
    rw [h]

/-- Witness for C8 on an instance with data `name = Phone`: `missing`
raises carrying class and field name, `name` returns the value. -/
theorem getattr_missing_attribute_witness :
    BaseXapianModel.getAttr "Product" mC8 "missing"
      = Except.error { clsName := "Product", attrName := "missing" }
    ∧ BaseXapianModel.getAttr "Product" mC8 "name" = Except.ok (Val.vstr "Phone") :=
  ⟨(getattr_missing_attribute "Product" mC8 "missing").1 rfl,
   (getattr_missing_attribute "Product" mC8 "name").2 (Val.vstr "Phone") rfl⟩

/-- C10: constructing a model from a data mapping plus keyword fields makes
the document data the data mapping overridden by the keyword fields — the
keyword value wins on every shared key.  (The instance copies the mapping:
in this value-level model the document data depends only on the value of
`data`, mirroring the fresh dict the source builds.) -/
theorem init_kwargs_override (data kwargs : Dict)
    (h : Dict.NodupKeys kwargs) (k : String) :
    Dict.lookup (BaseXapianModel.init (some data) kwargs).doc k
      = orElseO (Dict.lookup kwargs k) (Dict.lookup data k) := by
  unfold BaseXapianModel.init
  exact Dict.lookup_merge data kwargs h k

/-- Witness for C10: data `price = 50` with keyword `price = 99` yields
document data whose `price` is `99`. -/
theorem init_kwargs_override_witness :
    Dict.NodupKeys [("price", Val.vnat 99)]
    ∧ Dict.lookup (BaseXapianModel.init
        (some [("name", Val.vstr "Phone"), ("price", Val.vnat 50)])
        [("price", Val.vnat 99)]).doc "price" = some (Val.vnat 99) := by
  refine ⟨by decide, ?_⟩
  rw [init_kwargs_override [("name", Val.vstr "Phone"), ("price", Val.vnat 50)]
    [("price", Val.vnat 99)] (by decide) "price"]
  rfl

/-- C5 counterexample: the claim says reserved-prefixed field names are
never present in the document data under **every** public construction,
but the constructor merges its data mapping (and keyword fields) into
`_data` unfiltered — `BaseXapianModel(\x7b"_evil": 1\x7d)` puts the
reserved key `_evil` straight into the document data. -/
theorem reserved_key_enters_data_via_init :
    BaseXapianModel.reservedName "_evil" = true
    ∧ Dict.lookup (BaseXapianModel.init (some [("_evil", Val.vnat 1)]) []).doc "_evil"
        = some (Val.vnat 1) :=
  ⟨rfl, rfl⟩

/-- C5 as amended: an *attribute write* of a reserved-prefixed name never
touches the document data (it is stored as ordinary instance state), and an
attribute write of a non-reserved name preserves the absence of reserved
keys from the document data; the constructor, however, merges whatever keys
its arguments carry.  (`name ≠ "_data"` excludes rebinding the document
mapping itself, which replaces it wholesale as `save` does internally.) -/
theorem setattr_keeps_reserved_out_of_data (m : ModelState) (name : String)
    (v : Val) (_hdata : name ≠ "_data") :
    (BaseXapianModel.reservedName name = true →
      (BaseXapianModel.setAttr m name v).doc = m.doc)
    ∧ ((∀ k w, Dict.lookup m.doc k = some w → BaseXapianModel.reservedName k = false) →
        BaseXapianModel.reservedName name = false →
        ∀ k w, Dict.lookup (BaseXapianModel.setAttr m name v).doc k = some w →
          BaseXapianModel.reservedName k = false) := by
  constructor
  · intro h
    unfold BaseXapianModel.setAttr
    rw [h]
    simp
  · intro hm hres k w hk
    unfold BaseXapianModel.setAttr at hk
    rw [hres] at hk
    simp only [Bool.false_eq_true, if_false] at hk
    rw [Dict.lookup_insert] at hk
    by_cases hkn : name = k
    · exact hkn ▸ hres
    · rw [if_neg hkn] at hk
      exact hm k w hk

/-- Witness for C5 as amended: writing the reserved attribute
`_index_params` on an instance leaves its document data untouched, and a
plain write keeps a reserved-free document reserved-free. -/
theorem setattr_keeps_reserved_out_of_data_witness :
    BaseXapianModel.reservedName "_index_params" = true
    ∧ (BaseXapianModel.setAttr mC5 "_index_params" (Val.vdict [])).doc = mC5.doc :=
  ⟨rfl, (setattr_keeps_reserved_out_of_data mC5 "_index_params" (Val.vdict [])
    (by decide)).1 rfl⟩

/-- C7: a successful save replaces the entire document data of the instance with
the data of whichever put response succeeded (the first, or the 412 retry),
and leaves the other instance attributes — in particular the stashed
index-params — alone; no pre-save field survives unless the server echoed
it, because the new document data *is* the response. -/
theorem save_replaces_document_data (tmpl : Template) (schema : Dict)
    (m : ModelState) (r1 r2 : PutResult) (m2 : ModelState)
    (h : (xapian_model.save tmpl schema m r1 r2).1 = Except.ok m2) :
    (r1 = PutResult.ok m2.doc ∨ r2 = PutResult.ok m2.doc) ∧ m2.priv = m.priv := by
  unfold xapian_model.save at h
  split at h
  · cases h
  · cases r1 with
    | ok d =>
      cases h
      exact ⟨Or.inl rfl, rfl⟩
    | err e =>
      obtain ⟨eresp⟩ := e
      cases eresp with
      | none => cases h
      | some resp =>
        by_cases h412 : resp.status_code = 412
        · simp only [h412, if_pos] at h
          cases r2 with
          | ok d =>
            cases h
            exact ⟨Or.inr rfl, rfl⟩
          | err e2 => cases h
        · simp only [if_neg h412] at h
          cases h

/-- Witness for C7: saving `mC7` with a first response carrying normalized
data yields exactly that data as the new document data (the old `title`
field is gone) and untouched private attributes. -/
theorem save_replaces_document_data_witness :
    (xapian_model.save tmplItems [] mC7
        (PutResult.ok [("id", Val.vstr "1"), ("name", Val.vstr "Updated")])
        (PutResult.ok [])).1
      = Except.ok { doc := [("id", Val.vstr "1"), ("name", Val.vstr "Updated")],
                    priv := mC7.priv }
    ∧ (PutResult.ok [("id", Val.vstr "1"), ("name", Val.vstr "Updated")]
        = PutResult.ok ({ doc := [("id", Val.vstr "1"), ("name", Val.vstr "Updated")],
                          priv := mC7.priv } : ModelState).doc
       ∨ PutResult.ok ([] : Dict)
        = PutResult.ok ({ doc := [("id", Val.vstr "1"), ("name", Val.vstr "Updated")],
                          priv := mC7.priv } : ModelState).doc) := by
  refine ⟨rfl, ?_⟩
  exact (save_replaces_document_data tmplItems [] mC7
    (PutResult.ok [("id", Val.vstr "1"), ("name", Val.vstr "Updated")])
    (PutResult.ok []) _ rfl).1

/-- C9: delete issues exactly one backend delete, at the resolved
index path of the instance, keyed by the `id` currently present in the document
data; on success the instance state is completely unchanged, and a remote
failure propagates unchanged (with the state still untouched). -/
theorem delete_single_call_no_mutation (tmpl : Template) (m : ModelState)
    (r : DeleteResult) (index : String)
    (h : BaseXapianModel._get_index tmpl m = some index) :
    (xapian_model.delete tmpl m r).2.1
        = [{ index := index, id := Dict.lookup m.doc "id" }]
    ∧ (xapian_model.delete tmpl m r).2.2 = m
    ∧ (r = DeleteResult.ok → (xapian_model.delete tmpl m r).1 = Except.ok ())
    ∧ (∀ e, r = DeleteResult.err e →
        (xapian_model.delete tmpl m r).1 = Except.error (PyError.transport e)) := by
  unfold xapian_model.delete
  rw [h]
  cases r with
  | ok =>
    refine ⟨rfl, rfl, fun _ => rfl, ?_⟩
    intro e he
    cases he
  | err e =>
    refine ⟨rfl, rfl, ?_, ?_⟩
    · intro he
      cases he
    · intro e2 he
      cases he
      rfl

/-- Witness for C9: deleting `mC9` over `/items` issues the single call
`delete("/items", id="42")`, returns success and leaves the state equal to
what it was. -/
theorem delete_single_call_no_mutation_witness :
    (xapian_model.delete tmplItems mC9 DeleteResult.ok).2.1
        = [{ index := "/items", id := some (Val.vstr "42") }]
    ∧ (xapian_model.delete tmplItems mC9 DeleteResult.ok).2.2 = mC9
    ∧ (xapian_model.delete tmplItems mC9 DeleteResult.ok).1 = Except.ok () := by
  have h := delete_single_call_no_mutation tmplItems mC9 DeleteResult.ok "/items" rfl
  refine ⟨?_, h.2.1, h.2.2.1 rfl⟩
  rw [h.1]
  rfl

/-- C3 counterexample: `filter` copies the `count` field of the response into
`total_count` instead of counting the wrapped hits, so a backend response
claiming `count = 7` with no hits yields a `SearchResults` whose
`total_count` is `7` while zero instances were wrapped — refuting the
claim that the result count always equals the number of hits wrapped. -/
theorem filter_count_is_not_hit_count :
    (xapian_model.filter tmplItems none none none none none []
        (SearchResult.ok { hits := [], count := 7, total := 0, aggregations := none })).1
      = Except.ok { results := [], total_count := 7,
                    matches_estimated := 0, aggregations := none }
    ∧ (7 : Nat) ≠ List.length ([] : List ModelState) :=
  ⟨rfl, by decide⟩

/-- C3 as amended: the `total_count` of the `SearchResults` returned by
`filter` equals the `count` field of the backend response (these coincide
with the number of wrapped hits exactly when the backend reports
`count = len(hits)`, as it contractually does); every hit is wrapped into a
model instance; the estimated total is passed through separately; and the
aggregations field is copied verbatim, hence null whenever the response
carries none. -/
theorem filter_copies_response_fields (tmpl : Template) (query : Option String)
    (limit offset : Option Nat) (sort : Option String) (cal : Option Nat)
    (kwargs : Dict) (resp : SearchResponse) (sr : SearchResults)
    (calls : List SearchCall)
    (h : xapian_model.filter tmpl query limit offset sort cal kwargs
        (SearchResult.ok resp) = (Except.ok sr, calls)) :
    sr.total_count = resp.count
    ∧ sr.results.length = resp.hits.length
    ∧ sr.matches_estimated = resp.total
    ∧ sr.aggregations = resp.aggregations := by
  unfold xapian_model.filter at h
  cases hidx : Template.format tmpl (_extract_index_params tmpl kwargs).1 with
  | none =>
    simp only [hidx] at h
    cases h
  | some index =>
    simp only [hidx] at h
    cases h
    refine ⟨rfl, ?_, rfl, rfl⟩
    exact List.length_map resp.hits _

/-- Witness for C3 as amended, on the well-behaved response `respC3`. -/
theorem filter_copies_response_fields_witness :
    xapian_model.filter tmplItems none none none none none []
        (SearchResult.ok respC3) = (Except.ok srC3, [callC3])
    ∧ srC3.total_count = respC3.count
    ∧ srC3.results.length = respC3.hits.length
    ∧ srC3.aggregations = respC3.aggregations := by
  have h := filter_copies_response_fields tmplItems none none none none none []
    respC3 srC3 [callC3] rfl
  exact ⟨rfl, h.1, h.2.1, h.2.2.2⟩

/-- C1 (refuted by the async code as written): the claim covers *every*
non-412 failure of the first put, but `src/xapian_model/base.py` reads
`exc.response.status_code` without the `exc.response is not None` guard
its sync twin `src/xprofile/base.py` has, so a response-less
`TransportError` (a connection-level failure) makes both `create` and
`save` crash with `AttributeError` inside the handler instead of
propagating the original `TransportError` their docstrings promise.  This
theorem evaluates both operations at that failing input: one put was
issued, no second put, and the surfaced failure is the attribute error,
not the transport failure. -/
theorem create_save_crash_on_responseless_failure :
    xapian_model.create tmplItems [] none []
        (PutResult.err { response := none }) (PutResult.ok [])
      = (Except.error PyError.attributeOnNone,
         [{ index := "/items", body := [], id := none }])
    ∧ xapian_model.save tmplItems []
        (BaseXapianModel.init (some [("id", Val.vstr "1")]) [])
        (PutResult.err { response := none }) (PutResult.ok [])
      = (Except.error PyError.attributeOnNone,
         [{ index := "/items", body := [("id", Val.vstr "1")],
            id := some (Val.vstr "1") }]) :=
  ⟨rfl, rfl⟩

/-- C4 counterexample: the sync and async variants are *not* behaviorally
equivalent — on a first-put `TransportError` carrying no response, the
async `create` surfaces the attribute-access crash while the sync `create`
re-raises the transport failure itself. -/
theorem sync_async_diverge_on_responseless_failure :
    (xapian_model.create tmplProducts [] none [("category", Val.vstr "electronics")]
        (PutResult.err { response := none }) (PutResult.ok [])).1
      ≠ (xprofile.create tmplProducts [] none [("category", Val.vstr "electronics")]
        (PutResult.err { response := none }) (PutResult.ok [])).1 := by
  intro h
  have ha : (xapian_model.create tmplProducts [] none
        [("category", Val.vstr "electronics")]
        (PutResult.err { response := none }) (PutResult.ok [])).1
      = Except.error PyError.attributeOnNone := rfl
  have hs : (xprofile.create tmplProducts [] none
        [("category", Val.vstr "electronics")]
        (PutResult.err { response := none }) (PutResult.ok [])).1
      = Except.error (PyError.transport { response := none }) := rfl
  rw [ha, hs] at h
  injection h with h2
  exact PyError.noConfusion h2

/-- C4 as amended: the sync variant (`src/xprofile/base.py`) and the async
variant (`src/xapian_model/base.py`) are behaviorally equivalent — same
resolved paths, same request bodies, same wire-call traces, same results
and same propagated failures — for every input and every backend outcome
in which a failing first put carries an HTTP response; only a
response-less failure of `create`/`save` separates them (crash vs
re-raise), as the counterexample shows. -/
theorem sync_async_equivalent (tmpl : Template) (schema : Dict)
    (id : Option String) (kwargs : Dict) (m : ModelState) (r1 r2 : PutResult)
    (gid : String) (vol : Bool) (rg : GetResult) (query : Option String)
    (limit offset : Option Nat) (sort : Option String) (cal : Option Nat)
    (rs : SearchResult) (rd : DeleteResult)
    (h1 : hasResponse r1) :
    xapian_model.create tmpl schema id kwargs r1 r2
        = xprofile.create tmpl schema id kwargs r1 r2
    ∧ xapian_model.save tmpl schema m r1 r2 = xprofile.save tmpl schema m r1 r2
    ∧ xapian_model.get tmpl gid vol kwargs rg = xprofile.get tmpl gid vol kwargs rg
    ∧ xapian_model.filter tmpl query limit offset sort cal kwargs rs
        = xprofile.filter tmpl query limit offset sort cal kwargs rs
    ∧ xapian_model.delete tmpl m rd = xprofile.delete tmpl m rd := by
  refine ⟨?_, ?_, rfl, rfl, rfl⟩
  · cases r1 with
    | ok d => rfl
    | err e =>
      obtain ⟨eresp⟩ := e
      cases eresp with
      | none => exact absurd rfl h1
      | some resp => rfl
  · cases r1 with
    | ok d => rfl
    | err e =>
      obtain ⟨eresp⟩ := e
      cases eresp with
      | none => exact absurd rfl h1
      | some resp => rfl

/-- Witness for C4 as amended: with a 412 first failure (which does carry a
response) the two `create` variants agree — both retry with the schema and
succeed identically. -/
theorem sync_async_equivalent_witness :
    hasResponse (PutResult.err { response := some { status_code := 412 } })
    ∧ xapian_model.create tmplItems [("title", Val.vdict [])] none
        [("title", Val.vstr "New")]
        (PutResult.err { response := some { status_code := 412 } })
        (PutResult.ok [("id", Val.vstr "1"), ("title", Val.vstr "New")])
      = xprofile.create tmplItems [("title", Val.vdict [])] none
        [("title", Val.vstr "New")]
        (PutResult.err { response := some { status_code := 412 } })
        (PutResult.ok [("id", Val.vstr "1"), ("title", Val.vstr "New")]) := by
  refine ⟨?_, ?_⟩
  · intro hcontra
    cases hcontra
  · exact (sync_async_equivalent tmplItems [("title", Val.vdict [])] none
      [("title", Val.vstr "New")]
      { doc := [], priv := [] }
      (PutResult.err { response := some { status_code := 412 } })
      (PutResult.ok [("id", Val.vstr "1"), ("title", Val.vstr "New")])
      "1" false (GetResult.ok []) none none none none none
      (SearchResult.ok respC3) DeleteResult.ok
      (fun hcontra => Option.noConfusion hcontra)).1
